import Mathlib

/-!
Verification of the gas-control module `gas_control_nist2.py` (class `GasControl`):
a shallow embedding of its routing/flow state machine, flow-setpoint pipeline,
pulse sequencers and thermal ramp loops, with theorems settling the spec claims.

Python floats are modelled by `ℚ` (every literal appearing in the source is an
exact decimal, so the rational model matches the float arithmetic at every
concrete input used below).  Serial and MFC traffic is modelled by event traces.
-/

namespace GasControlNist2

/-! ## Valves (`move_valve_to_position`, mode functions, §4.1/§4.3)

The valve bank addresses valves by letter A..I (`VALVE_ID`).  A position read
back is ON, OFF or Unknown (`get_valve_position`). -/

inductive Valve
  | A | B | C | D | E | F | G | H | I
deriving DecidableEq

inductive ValvePos
  | ON | OFF | Unknown
deriving DecidableEq

/-- The valve-bank state as observed at the hardware boundary. -/
def VState := Valve → ValvePos

/-- Hardware effect of one commanded move: the valve takes the commanded
position (the source resends the command once on a readback mismatch, so under
responsive hardware the commanded position is reached). -/
def upd (s : VState) (w : Valve) (p : ValvePos) : VState :=
  fun v => if v = w then p else s v

/-- Applying a vector of `(valve, target)` commands in order, as the mode
functions do: A, then B, then C. -/
def applyCmds (s : VState) (cmds : List (Valve × ValvePos)) : VState :=
  cmds.foldl (fun t c => upd t c.1 c.2) s

/-- The commands of a vector whose target differs from the current position,
i.e. the hardware-visible transitions (a command whose target equals the
current position is a redundant write). -/
def hwTransitions : VState → List (Valve × ValvePos) → List (Valve × ValvePos)
  | _, [] => []
  | s, c :: rest =>
    if s c.1 = c.2 then hwTransitions (upd s c.1 c.2) rest
    else c :: hwTransitions (upd s c.1 c.2) rest

/-- `cont_mode_A`: A OFF, B OFF, C OFF (source lines 368-385). -/
def cont_mode_A_vec : List (Valve × ValvePos) :=
  [(Valve.A, ValvePos.OFF), (Valve.B, ValvePos.OFF), (Valve.C, ValvePos.OFF)]

/-- `cont_mode_B`: A OFF, B ON, C OFF (source lines 387-404). -/
def cont_mode_B_vec : List (Valve × ValvePos) :=
  [(Valve.A, ValvePos.OFF), (Valve.B, ValvePos.ON), (Valve.C, ValvePos.OFF)]

/-- `pulses_loop_mode_A`: A ON, B OFF, C ON (source lines 517-534). -/
def pulses_loop_mode_A_vec : List (Valve × ValvePos) :=
  [(Valve.A, ValvePos.ON), (Valve.B, ValvePos.OFF), (Valve.C, ValvePos.ON)]

/-- `pulses_loop_mode_B`: A ON, B ON, C ON (source lines 536-553). -/
def pulses_loop_mode_B_vec : List (Valve × ValvePos) :=
  [(Valve.A, ValvePos.ON), (Valve.B, ValvePos.ON), (Valve.C, ValvePos.ON)]

inductive RoutingMode
  | ContinuousA | ContinuousB | PulseLoopA | PulseLoopB
deriving DecidableEq

/-- The fixed valve vector each mode function applies. -/
def modeVector : RoutingMode → List (Valve × ValvePos)
  | .ContinuousA => cont_mode_A_vec
  | .ContinuousB => cont_mode_B_vec
  | .PulseLoopA => pulses_loop_mode_A_vec
  | .PulseLoopB => pulses_loop_mode_B_vec

/-! ## Pulse sequencer timing (`send_pulses_valve_A`, §4.5)

`move_valve_to_position` writes the actuation command, sleeps a fixed 0.3 s,
then queries the position (a mismatched readback triggers one resend with no
further sleep), so each valve move contributes a 0.3 s settle sleep. -/

inductive PulseEv
  | valveCmd (v : Valve) (p : ValvePos)
  | posQuery (v : Valve)
  | sleepFor (d : ℚ)
deriving DecidableEq

/-- Trace of `move_valve_to_position` (source lines 215-233): command write,
`time.sleep(0.3)`, position query.  An invalid position prints and returns
without touching the hardware. -/
def move_valve_trace (v : Valve) (p : ValvePos) : List PulseEv :=
  match p with
  | .Unknown => []
  | _ => [.valveCmd v p, .sleepFor 0.3, .posQuery v]

def cont_mode_A_trace : List PulseEv :=
  move_valve_trace Valve.A ValvePos.OFF ++ move_valve_trace Valve.B ValvePos.OFF ++
    move_valve_trace Valve.C ValvePos.OFF

def cont_mode_B_trace : List PulseEv :=
  move_valve_trace Valve.A ValvePos.OFF ++ move_valve_trace Valve.B ValvePos.ON ++
    move_valve_trace Valve.C ValvePos.OFF

/-- `valve_actuation_time = 0.145` (source line 596). -/
def valve_actuation_time : ℚ := 0.145

/-- One iteration of the `send_pulses_valve_A` loop (source lines 605-610):
switch to continuous B, sleep `time_vo + 0.145`, switch back to continuous A,
sleep `time_bp`. -/
def pulse_valve_body (time_vo time_bp : ℚ) : List PulseEv :=
  cont_mode_B_trace ++ [.sleepFor (time_vo + valve_actuation_time)] ++
    cont_mode_A_trace ++ [.sleepFor time_bp]

/-- `send_pulses_valve_A` (source lines 593-611): enter continuous A, then run
`pulses` identical loop iterations. -/
def send_pulses_valve_A (pulses : ℕ) (time_vo time_bp : ℚ) : List PulseEv :=
  cont_mode_A_trace ++ (List.replicate pulses (pulse_valve_body time_vo time_bp)).flatten

/-- Total time explicitly slept in a trace. -/
def totalSleep : List PulseEv → ℚ
  | [] => 0
  | .sleepFor d :: rest => d + totalSleep rest
  | _ :: rest => totalSleep rest

theorem totalSleep_append (l1 l2 : List PulseEv) :
    totalSleep (l1 ++ l2) = totalSleep l1 + totalSleep l2 := by
  induction l1 with
  | nil => simp [totalSleep]
  | cons e rest ih =>
    cases e <;> simp [totalSleep, ih, add_assoc]

/-! ## Claim C5 -/

/-- Claim C5: each routing mode commands exactly the fixed valve vector of the
table, in the order A then B then C, and re-entering the same mode is
idempotent: the state is unchanged and every write of the second entry is
redundant (no hardware-visible transition). -/
theorem routing_mode_vectors_idempotent :
    (modeVector .ContinuousA =
        [(Valve.A, ValvePos.OFF), (Valve.B, ValvePos.OFF), (Valve.C, ValvePos.OFF)] ∧
      modeVector .ContinuousB =
        [(Valve.A, ValvePos.OFF), (Valve.B, ValvePos.ON), (Valve.C, ValvePos.OFF)] ∧
      modeVector .PulseLoopA =
        [(Valve.A, ValvePos.ON), (Valve.B, ValvePos.OFF), (Valve.C, ValvePos.ON)] ∧
      modeVector .PulseLoopB =
        [(Valve.A, ValvePos.ON), (Valve.B, ValvePos.ON), (Valve.C, ValvePos.ON)]) ∧
    ∀ (m : RoutingMode) (s : VState),
      applyCmds (applyCmds s (modeVector m)) (modeVector m) = applyCmds s (modeVector m) ∧
      hwTransitions (applyCmds s (modeVector m)) (modeVector m) = [] := by
  refine ⟨⟨rfl, rfl, rfl, rfl⟩, ?_⟩
  intro m s
  cases m <;> exact ⟨funext fun v => by cases v <;> rfl, rfl⟩

/-! ## Claim C7 -/

/-- Claim C7 counterexample: with `time_valve_open = 1` and
`time_between_pulses = 1` the slept time of one pulse iteration is 3.945 s,
not the claimed `1 + 0.145 + 1 = 2.145` s: the two mode switches contribute
six extra 0.3 s settle sleeps. -/
theorem send_pulses_valve_A_per_pulse_cex :
    totalSleep (pulse_valve_body 1 1) = 3.945 ∧
    (1 + valve_actuation_time + 1 : ℚ) = 2.145 ∧
    totalSleep (pulse_valve_body 1 1) ≠ 1 + valve_actuation_time + 1 := by
  refine ⟨by norm_num [pulse_valve_body, cont_mode_A_trace, cont_mode_B_trace,
      move_valve_trace, totalSleep, valve_actuation_time], ?_, ?_⟩ <;>
    norm_num [pulse_valve_body, cont_mode_A_trace, cont_mode_B_trace,
      move_valve_trace, totalSleep, valve_actuation_time]

/-- Claim C7 (amended): each pulse iteration sleeps
`time_valve_open + 0.145 + time_between_pulses + 1.8` seconds: besides the two
explicit sleeps, each of the two mode switches performs three valve moves and
each move sleeps a fixed 0.3 s settle delay inside `move_valve_to_position`
(six settle sleeps per iteration).  The whole call sleeps an additional 0.9 s
for the initial switch to continuous A. -/
theorem send_pulses_valve_A_sleep_time :
    ∀ (pulses : ℕ) (time_vo time_bp : ℚ),
      totalSleep (pulse_valve_body time_vo time_bp) =
        time_vo + valve_actuation_time + time_bp + 6 * 0.3 ∧
      totalSleep (send_pulses_valve_A pulses time_vo time_bp) =
        3 * 0.3 + pulses * (time_vo + valve_actuation_time + time_bp + 6 * 0.3) := by
  have hbody : ∀ time_vo time_bp : ℚ,
      totalSleep (pulse_valve_body time_vo time_bp) =
        time_vo + valve_actuation_time + time_bp + 6 * 0.3 := by
    intro tvo tbp
    simp [pulse_valve_body, cont_mode_A_trace, cont_mode_B_trace, move_valve_trace,
      totalSleep, totalSleep_append]
    ring
  have hrep : ∀ (n : ℕ) (l : List PulseEv),
      totalSleep (List.replicate n l).flatten = n * totalSleep l := by
    intro n l
    induction n with
    | zero => simp [totalSleep]
    | succ m ih =>
      rw [List.replicate_succ, List.flatten_cons, totalSleep_append, ih]
      push_cast
      ring
  intro pulses time_vo time_bp
  refine ⟨hbody time_vo time_bp, ?_⟩
  rw [send_pulses_valve_A, totalSleep_append, hrep, hbody]
  have hA : totalSleep cont_mode_A_trace = 3 * 0.3 := by
    norm_num [cont_mode_A_trace, move_valve_trace, totalSleep]
  rw [hA]

/-! ## Gas channel registry (`define_flowsms`, source lines 613-829)

The registry dictionaries map the 26 gas ids to MFC node, calibration-curve
index, flow range, calibration factor, routing action and quantization divisor.
`gas_ID`, `gas_cal`, `gas_flow_range` and `gas_float_to_int_factor` list every
gas exactly once, so they are total functions here.  The dict literals for
`calibration_factor` and `feed_gas_functions` each write the key `"CO2_AL"`
twice and never write `"CO2_BL"`; a Python dict literal keeps the last value
for a repeated key, so the built dicts have 25 keys and a lookup at `"CO2_BL"`
raises `KeyError`.  Those two are therefore `Option`-valued, `none` exactly at
`CO2_BL`. -/

inductive Gas
  | H2_A | H2_B | D2_A | D2_B | O2_A | O2_B
  | CO_AH | CO_AL | CO_BH | CO_BL
  | CO2_AH | CO2_AL | CO2_BH | CO2_BL
  | CH4_A | CH4_B | C2H6_A | C2H6_B | C3H8_A | C3H8_B
  | He_A | He_B | Ar_A | Ar_B | N2_A | N2_B
deriving DecidableEq, Fintype

def gasName : Gas → String
  | .H2_A => "H2_A" | .H2_B => "H2_B" | .D2_A => "D2_A" | .D2_B => "D2_B"
  | .O2_A => "O2_A" | .O2_B => "O2_B"
  | .CO_AH => "CO_AH" | .CO_AL => "CO_AL" | .CO_BH => "CO_BH" | .CO_BL => "CO_BL"
  | .CO2_AH => "CO2_AH" | .CO2_AL => "CO2_AL" | .CO2_BH => "CO2_BH" | .CO2_BL => "CO2_BL"
  | .CH4_A => "CH4_A" | .CH4_B => "CH4_B" | .C2H6_A => "C2H6_A" | .C2H6_B => "C2H6_B"
  | .C3H8_A => "C3H8_A" | .C3H8_B => "C3H8_B"
  | .He_A => "He_A" | .He_B => "He_B" | .Ar_A => "Ar_A" | .Ar_B => "Ar_B"
  | .N2_A => "N2_A" | .N2_B => "N2_B"

/-- `self.gas_list`, in source order (lines 626-653). -/
def gas_list : List Gas :=
  [.H2_A, .H2_B, .D2_A, .D2_B, .O2_A, .O2_B,
   .CO_AH, .CO_AL, .CO_BH, .CO_BL,
   .CO2_AH, .CO2_AL, .CO2_BH, .CO2_BL,
   .CH4_A, .CH4_B, .C2H6_A, .C2H6_B, .C3H8_A, .C3H8_B,
   .He_A, .He_B, .Ar_A, .Ar_B, .N2_A, .N2_B]

/-- The `gas not in self.gas_list` membership test, resolving the string to its
registry entry. -/
def findGas (s : String) : Option Gas :=
  gas_list.find? fun g => gasName g == s

/-- `self.gas_ID` (lines 657-684): MFC node per gas. -/
def gas_ID : Gas → ℕ
  | .H2_A => 4 | .D2_A => 4 | .O2_A => 5
  | .CO_AH => 6 | .CO_AL => 6 | .CO2_AH => 6 | .CO2_AL => 6
  | .CH4_A => 7 | .C2H6_A => 7 | .C3H8_A => 7
  | .He_A => 8 | .Ar_A => 8 | .N2_A => 8
  | .He_B => 9 | .Ar_B => 9 | .N2_B => 9
  | .CH4_B => 10 | .C2H6_B => 10 | .C3H8_B => 10
  | .CO_BH => 11 | .CO_BL => 11 | .CO2_BH => 11 | .CO2_BL => 11
  | .O2_B => 12 | .H2_B => 13 | .D2_B => 13

/-- `self.gas_cal` (lines 686-713): calibration-curve index.  Every entry
carries a non-`None` integer, so the `is not None` test in `set_flowrate`
always succeeds. -/
def gas_cal : Gas → ℤ
  | .H2_A => 0 | .H2_B => 0 | .D2_A => 1 | .D2_B => 1
  | .O2_A => 0 | .O2_B => 0
  | .CO_AH => 0 | .CO_BH => 0 | .CO2_AH => 1 | .CO2_BH => 1
  | .CO2_AL => 2 | .CO2_BL => 2 | .CO_AL => 3 | .CO_BL => 3
  | .CH4_A => 0 | .CH4_B => 0 | .C2H6_A => 1 | .C2H6_B => 1
  | .C3H8_A => 2 | .C3H8_B => 2
  | .He_A => 0 | .He_B => 0 | .Ar_A => 1 | .Ar_B => 1
  | .N2_A => 2 | .N2_B => 2

/-- `self.gas_flow_range` (lines 715-742): `[min, max]` in sccm. -/
def gas_flow_range : Gas → ℚ × ℚ
  | .CO2_AH => (0.6, 30.0) | .CO2_AL => (0.26, 13.0)
  | .CO2_BH => (0.6, 30.0) | .CO2_BL => (0.26, 13.0)
  | .CO_AH => (0.6, 30.0) | .CO_AL => (0.36, 18.0)
  | .CO_BH => (0.6, 30.0) | .CO_BL => (0.36, 18.0)
  | .CH4_A => (0.6, 30.0) | .CH4_B => (0.6, 30.0)
  | .C2H6_A => (0.6, 30.0) | .C2H6_B => (0.6, 30.0)
  | .C3H8_A => (0.6, 30.0) | .C3H8_B => (0.6, 30.0)
  | .H2_A => (0.6, 30.0) | .H2_B => (0.6, 30.0)
  | .D2_A => (0.6, 30.0) | .D2_B => (0.6, 30.0)
  | .O2_A => (0.6, 30.0) | .O2_B => (0.6, 30.0)
  | .He_A => (1.2, 60.0) | .He_B => (1.2, 60.0)
  | .Ar_A => (1.2, 60.0) | .Ar_B => (1.2, 60.0)
  | .N2_A => (1.2, 60.0) | .N2_B => (1.2, 60.0)

/-- `self.calibration_factor` (lines 744-771).  The literal repeats the key
`"CO2_AL"` (lines 762 and 764) and omits `"CO2_BL"`, so the dict has no entry
for `CO2_BL`. -/
def calibration_factor : Gas → Option ℚ
  | .CO2_BL => none
  | _ => some 1.0

/-- The single-valve routing action a feed function performs. -/
inductive FeedAct
  | moveValve (v : Valve) (p : ValvePos)
  | noMove
deriving DecidableEq

/-- `self.feed_gas_functions` (lines 773-800), with each feed function reduced
to the valve move it performs (`feed_O2_AB` is `pass`; `C3H8_*` are bound to
`feed_C2H6_AB`; `N2_A`/`N2_B` to `carrier_Ar_A`/`carrier_Ar_B`).  The literal
repeats the key `"CO2_AL"` (lines 791 and 793) and omits `"CO2_BL"`. -/
def feed_gas_functions : Gas → Option FeedAct
  | .H2_A => some (.moveValve .I .OFF)
  | .H2_B => some (.moveValve .H .ON)
  | .D2_A => some (.moveValve .I .ON)
  | .D2_B => some (.moveValve .H .OFF)
  | .O2_A => some .noMove
  | .O2_B => some .noMove
  | .CO_AH => some (.moveValve .D .OFF)
  | .CO_AL => some (.moveValve .D .OFF)
  | .CO_BH => some (.moveValve .D .OFF)
  | .CO_BL => some (.moveValve .D .OFF)
  | .CH4_A => some (.moveValve .E .ON)
  | .CH4_B => some (.moveValve .E .ON)
  | .C2H6_A => some (.moveValve .E .OFF)
  | .C2H6_B => some (.moveValve .E .OFF)
  | .C3H8_A => some (.moveValve .E .OFF)
  | .C3H8_B => some (.moveValve .E .OFF)
  | .CO2_AH => some (.moveValve .D .ON)
  | .CO2_AL => some (.moveValve .D .ON)
  | .CO2_BH => some (.moveValve .D .ON)
  | .CO2_BL => none
  | .He_A => some (.moveValve .G .OFF)
  | .He_B => some (.moveValve .F .ON)
  | .Ar_A => some (.moveValve .G .ON)
  | .Ar_B => some (.moveValve .F .OFF)
  | .N2_A => some (.moveValve .G .ON)
  | .N2_B => some (.moveValve .F .OFF)

/-- `self.gas_float_to_int_factor` (lines 802-829): quantization divisor. -/
def gas_float_to_int_factor : Gas → ℚ
  | .H2_A => 30 | .H2_B => 30 | .D2_A => 30 | .D2_B => 30
  | .O2_A => 30 | .O2_B => 30
  | .CO_AH => 30 | .CO_AL => 18 | .CO_BH => 30 | .CO_BL => 18
  | .CH4_A => 30 | .CH4_B => 30 | .C2H6_A => 30 | .C2H6_B => 30
  | .C3H8_A => 30 | .C3H8_B => 30
  | .CO2_AH => 30 | .CO2_AL => 13 | .CO2_BH => 30 | .CO2_BL => 13
  | .He_A => 60 | .He_B => 60 | .Ar_A => 60 | .Ar_B => 60
  | .N2_A => 60 | .N2_B => 60

/-! ## Flow setpoints (`set_flowrate`, source lines 831-910) -/

/-- Python `int(...)` on a float: truncation toward zero. -/
def pyTrunc (q : ℚ) : ℤ :=
  if 0 ≤ q then ⌊q⌋ else ⌈q⌉

/-- An operator reply to the range-violation prompt: `"Yes"` followed by a new
flow typed at the second prompt, `"No"`, or any other text. -/
inductive OpResponse
  | yes (newFlow : ℚ)
  | no
  | other
deriving DecidableEq

/-- Observable events of one `set_flowrate` call. -/
inductive FlowEv
  | rangeLow (g : Gas)
  | rangeHigh (g : Gas)
  | feedGas (g : Gas) (act : FeedAct)
  | mfcWrite (node : ℕ) (proc : ℕ) (parm : ℕ) (data : ℤ)
deriving DecidableEq

/-- Result of the `while True` validation loop of `set_flowrate`. -/
inductive VRes
  | done (flow_conv : ℚ)
  | exitProgram
  | stuck
  | keyMissing
deriving DecidableEq

/-- Outcome of one pass through the body of the `while True` loop of
`set_flowrate` before any operator interaction: the loop breaks with a final
`flow_conv`, dies on a missing dict key, or prints a violation and prompts the
operator (carrying the out-of-range `flow_conv` the loop would keep if the
reply is neither `"Yes"` nor `"No"`). -/
inductive LoopIter
  | broke (flow_conv : ℚ)
  | failKey
  | prompt (ev : FlowEv) (flow_conv : ℚ)
deriving DecidableEq

/-- One pass through the loop body (lines 846-880): a `None` or zero flow
breaks with `flow_conv = 0`; otherwise the flow is divided by the calibration
factor (a missing dict key raises `KeyError`) and compared with the range. -/
def loop_iter (g : Gas) (flow : Option ℚ) : LoopIter :=
  match flow with
  | none => .broke 0
  | some f =>
    if f = 0 then .broke 0
    else
      match calibration_factor g with
      | none => .failKey
      | some cf =>
        let fc := f / cf
        if fc < (gas_flow_range g).1 then .prompt (.rangeLow g) fc
        else if (gas_flow_range g).2 < fc then .prompt (.rangeHigh g) fc
        else .broke fc

/-- The `while True` loop of `set_flowrate` (lines 845-880), driven by the
operator replies.  On a range-violation prompt, `"Yes"` re-enters the loop with
the freshly typed flow, `"No"` raises `SystemExit`, and any other reply breaks
the loop keeping the out-of-range `flow_conv`.  `stuck` marks a prompt with no
modelled operator reply (the blocking `input()`). -/
def validate_flow (g : Gas) : Option ℚ → List OpResponse → List FlowEv × VRes
  | flow, [] =>
    match loop_iter g flow with
    | .broke fc => ([], .done fc)
    | .failKey => ([], .keyMissing)
    | .prompt ev _ => ([ev], .stuck)
  | flow, r :: rest =>
    match loop_iter g flow with
    | .broke fc => ([], .done fc)
    | .failKey => ([], .keyMissing)
    | .prompt ev fc =>
      match r with
      | .yes nf =>
        let t := validate_flow g (some nf) rest
        (ev :: t.1, t.2)
      | .no => ([ev], .exitProgram)
      | .other => ([ev], .done fc)

inductive FlowOutcome
  | ok (flow_conv : ℚ) (flow_data : ℤ)
  | unknownGas
  | sysExit
  | keyErr
  | awaitInput
deriving DecidableEq

structure FlowRun where
  events : List FlowEv
  outcome : FlowOutcome
deriving DecidableEq

/-- `set_flowrate(gas, flow)` (lines 831-910): unknown gas raises `ValueError`;
the validation loop produces `flow_conv`; a positive `flow_conv` invokes the
gas's feed function (a missing dict key raises `KeyError`); then
`flow_data = int(flow_conv * 32000 / divisor)` and the parameter writes are
issued: the calibration-curve write (proc 1, parm 16) first — every `gas_cal`
entry is a non-`None` integer, so the `is not None` guard always holds — then
the setpoint write (proc 1, parm 1). -/
def set_flowrate (gas : String) (flow : Option ℚ) (resps : List OpResponse) : FlowRun :=
  match findGas gas with
  | none => ⟨[], .unknownGas⟩
  | some g =>
    let v := validate_flow g flow resps
    match v.2 with
    | .exitProgram => ⟨v.1, .sysExit⟩
    | .stuck => ⟨v.1, .awaitInput⟩
    | .keyMissing => ⟨v.1, .keyErr⟩
    | .done fc =>
      if 0 < fc then
        match feed_gas_functions g with
        | none => ⟨v.1, .keyErr⟩
        | some act =>
          let fd := pyTrunc (fc * 32000 / gas_float_to_int_factor g)
          ⟨v.1 ++ [.feedGas g act,
                   .mfcWrite (gas_ID g) 1 16 (gas_cal g),
                   .mfcWrite (gas_ID g) 1 1 fd],
           .ok fc fd⟩
      else
        let fd := pyTrunc (fc * 32000 / gas_float_to_int_factor g)
        ⟨v.1 ++ [.mfcWrite (gas_ID g) 1 16 (gas_cal g),
                 .mfcWrite (gas_ID g) 1 1 fd],
         .ok fc fd⟩

/-- The MFC writes among a list of events. -/
def mfcWrites : List FlowEv → List FlowEv
  | [] => []
  | .mfcWrite n p m d :: rest => .mfcWrite n p m d :: mfcWrites rest
  | _ :: rest => mfcWrites rest

/-- Whether a range-violation prompt was surfaced. -/
def hasPrompt (evs : List FlowEv) : Bool :=
  evs.any fun e =>
    match e with
    | .rangeLow _ => true
    | .rangeHigh _ => true
    | _ => false

theorem hasPrompt_append_left (l1 l2 : List FlowEv) (h : hasPrompt l1 = true) :
    hasPrompt (l1 ++ l2) = true := by
  simp only [hasPrompt, List.any_append] at h ⊢
  simp [h]

/-- The events of a `set_flowrate` call extend the validation-loop events. -/
theorem set_flowrate_events_eq (s : String) (g : Gas) (flow : Option ℚ)
    (resps : List OpResponse) (hg : findGas s = some g) :
    ∃ tail, (set_flowrate s flow resps).events = (validate_flow g flow resps).1 ++ tail := by
  cases hres : (validate_flow g flow resps).2 with
  | done fc =>
    by_cases hpos : 0 < fc
    · cases hfd : feed_gas_functions g with
      | none => exact ⟨[], by simp [set_flowrate, hg, hres, hpos, hfd]⟩
      | some act =>
        exact ⟨[.feedGas g act, .mfcWrite (gas_ID g) 1 16 (gas_cal g),
          .mfcWrite (gas_ID g) 1 1 (pyTrunc (fc * 32000 / gas_float_to_int_factor g))],
          by simp [set_flowrate, hg, hres, hpos, hfd]⟩
    · exact ⟨[.mfcWrite (gas_ID g) 1 16 (gas_cal g),
        .mfcWrite (gas_ID g) 1 1 (pyTrunc (fc * 32000 / gas_float_to_int_factor g))],
        by simp [set_flowrate, hg, hres, hpos]⟩
  | exitProgram => exact ⟨[], by simp [set_flowrate, hg, hres]⟩
  | stuck => exact ⟨[], by simp [set_flowrate, hg, hres]⟩
  | keyMissing => exact ⟨[], by simp [set_flowrate, hg, hres]⟩

/-! ## Claim C1 -/

/-- Claim C1 (amended): for a registered gas and a nonzero flow whose converted
value falls outside the calibrated range, `set_flowrate` surfaces the
range-violation prompt whatever the operator replies, and when the operator
aborts (replies `"No"`) the call exits via `SystemExit` having issued no MFC
write.  (A reply other than `"Yes"`/`"No"`, however, accepts the out-of-range
value and proceeds to write it — see the counterexample.) -/
theorem set_flowrate_range_violation (s : String) (g : Gas) (f cf : ℚ)
    (resps : List OpResponse)
    (hg : findGas s = some g)
    (hcf : calibration_factor g = some cf)
    (hf : f ≠ 0)
    (hout : f / cf < (gas_flow_range g).1 ∨ (gas_flow_range g).2 < f / cf) :
    hasPrompt (set_flowrate s (some f) resps).events = true ∧
    (set_flowrate s (some f) [OpResponse.no]).outcome = FlowOutcome.sysExit ∧
    mfcWrites (set_flowrate s (some f) [OpResponse.no]).events = [] := by
  have hiter : loop_iter g (some f) = .prompt (.rangeLow g) (f / cf) ∨
      loop_iter g (some f) = .prompt (.rangeHigh g) (f / cf) := by
    by_cases hlt : f / cf < (gas_flow_range g).1
    · exact Or.inl (by simp [loop_iter, hf, hcf, hlt])
    · exact Or.inr (by simp [loop_iter, hf, hcf, hlt, hout.resolve_left hlt])
  have hprompt : hasPrompt (validate_flow g (some f) resps).1 = true := by
    rcases hiter with hit | hit <;> rcases resps with _ | ⟨r, rest⟩
    · simp [validate_flow, hit, hasPrompt]
    · cases r <;> simp [validate_flow, hit, hasPrompt]
    · simp [validate_flow, hit, hasPrompt]
    · cases r <;> simp [validate_flow, hit, hasPrompt]
  have hno : validate_flow g (some f) [OpResponse.no] =
      ([FlowEv.rangeLow g], VRes.exitProgram) ∨
      validate_flow g (some f) [OpResponse.no] =
      ([FlowEv.rangeHigh g], VRes.exitProgram) := by
    rcases hiter with hit | hit
    · left; simp [validate_flow, hit]
    · right; simp [validate_flow, hit]
  refine ⟨?_, ?_⟩
  · obtain ⟨tail, htail⟩ := set_flowrate_events_eq s g (some f) resps hg
    rw [htail]
    exact hasPrompt_append_left _ _ hprompt
  · rcases hno with h | h <;>
      exact ⟨by simp [set_flowrate, hg, h], by simp [set_flowrate, hg, h, mfcWrites]⟩

theorem set_flowrate_range_violation_witness :
    (findGas "CO_AL" = some Gas.CO_AL ∧ calibration_factor Gas.CO_AL = some 1 ∧
      (0.1 : ℚ) ≠ 0 ∧ (0.1 : ℚ) / 1 < (gas_flow_range Gas.CO_AL).1) ∧
    (hasPrompt (set_flowrate "CO_AL" (some 0.1) [OpResponse.no]).events = true ∧
      (set_flowrate "CO_AL" (some 0.1) [OpResponse.no]).outcome = FlowOutcome.sysExit ∧
      mfcWrites (set_flowrate "CO_AL" (some 0.1) [OpResponse.no]).events = []) :=
  ⟨⟨by decide, by norm_num [calibration_factor], by norm_num, by norm_num [gas_flow_range]⟩,
    set_flowrate_range_violation "CO_AL" Gas.CO_AL 0.1 1 [OpResponse.no]
      (by decide) (by norm_num [calibration_factor]) (by norm_num)
      (Or.inl (by norm_num [gas_flow_range]))⟩

/-- Claim C1 counterexample: an operator reply other than `"Yes"`/`"No"` breaks
the validation loop with the out-of-range value, and `set_flowrate("CO_AL",
0.1)` (converted flow 0.1 below the minimum 0.36) then DOES write the
out-of-range setpoint (code 177) to the MFC. -/
theorem set_flowrate_out_of_range_write_cex :
    (0.1 : ℚ) / 1 < (gas_flow_range Gas.CO_AL).1 ∧
    mfcWrites (set_flowrate "CO_AL" (some 0.1) [OpResponse.other]).events =
      [FlowEv.mfcWrite 6 1 16 3, FlowEv.mfcWrite 6 1 1 177] ∧
    (set_flowrate "CO_AL" (some 0.1) [OpResponse.other]).outcome =
      FlowOutcome.ok 0.1 177 := by
  have hiter : loop_iter Gas.CO_AL (some 0.1) =
      LoopIter.prompt (FlowEv.rangeLow Gas.CO_AL) 0.1 := by
    norm_num [loop_iter, calibration_factor, gas_flow_range]
  have hval : validate_flow Gas.CO_AL (some 0.1) [OpResponse.other] =
      ([FlowEv.rangeLow Gas.CO_AL], VRes.done 0.1) := by
    simp [validate_flow, hiter]
  have hfg : findGas "CO_AL" = some Gas.CO_AL := by decide
  have htr : pyTrunc ((0.1 : ℚ) * 32000 / 18) = 177 := by
    norm_num [pyTrunc]
  have hrun : set_flowrate "CO_AL" (some 0.1) [OpResponse.other] =
      ⟨[FlowEv.rangeLow Gas.CO_AL,
        FlowEv.feedGas Gas.CO_AL (FeedAct.moveValve Valve.D ValvePos.OFF),
        FlowEv.mfcWrite 6 1 16 3, FlowEv.mfcWrite 6 1 1 177],
       FlowOutcome.ok 0.1 177⟩ := by
    have hpos : (0 : ℚ) < 0.1 := by norm_num
    simp [set_flowrate, hfg, hval, hpos, htr, gas_ID, gas_cal, gas_float_to_int_factor,
      feed_gas_functions]
  rw [hrun]
  exact ⟨by norm_num [gas_flow_range], by simp [mfcWrites], rfl⟩

/-! ## Claim C2 -/

/-- Modelled from the spec: encode the device setpoint as
`code = round(flow_conv * 32000 / quantizationDivisor(gas))`, the
nearest-integer encoding. -/
def specSetpointCode (flow_conv divisor : ℚ) : ℤ :=
  round (flow_conv * 32000 / divisor)

/-- Claim C2 (amended): for a registered gas and an in-range positive converted
flow, the setpoint code written is the truncation
`int(flow_conv * 32000 / divisor)` (toward zero), not the nearest integer, and
the calibration-curve selection write precedes the setpoint write. -/
theorem set_flowrate_truncated_encoding (s : String) (g : Gas) (f cf : ℚ)
    (act : FeedAct) (resps : List OpResponse)
    (hg : findGas s = some g)
    (hcf : calibration_factor g = some cf)
    (hfd : feed_gas_functions g = some act)
    (hf : f ≠ 0)
    (hlo : ¬ f / cf < (gas_flow_range g).1)
    (hhi : ¬ (gas_flow_range g).2 < f / cf)
    (hpos : 0 < f / cf) :
    set_flowrate s (some f) resps =
      ⟨[FlowEv.feedGas g act,
        FlowEv.mfcWrite (gas_ID g) 1 16 (gas_cal g),
        FlowEv.mfcWrite (gas_ID g) 1 1
          (pyTrunc (f / cf * 32000 / gas_float_to_int_factor g))],
       FlowOutcome.ok (f / cf)
         (pyTrunc (f / cf * 32000 / gas_float_to_int_factor g))⟩ := by
  have hiter : loop_iter g (some f) = .broke (f / cf) := by
    simp [loop_iter, hf, hcf, hlo, hhi]
  have hval : validate_flow g (some f) resps = ([], .done (f / cf)) := by
    cases resps <;> simp [validate_flow, hiter]
  simp [set_flowrate, hg, hval, hpos, hfd]

theorem set_flowrate_truncated_encoding_witness :
    set_flowrate "He_A" (some 30) [] =
      ⟨[FlowEv.feedGas Gas.He_A (FeedAct.moveValve Valve.G ValvePos.OFF),
        FlowEv.mfcWrite 8 1 16 0, FlowEv.mfcWrite 8 1 1 16000],
       FlowOutcome.ok 30 16000⟩ := by
  have h := set_flowrate_truncated_encoding "He_A" Gas.He_A 30 1
      (FeedAct.moveValve Valve.G ValvePos.OFF) []
      (by decide) (by norm_num [calibration_factor]) (by decide)
      (by norm_num) (by norm_num [gas_flow_range]) (by norm_num [gas_flow_range])
      (by norm_num)
  rw [h]
  norm_num [pyTrunc, gas_ID, gas_cal, gas_float_to_int_factor]

/-- Claim C2 counterexample: for `CO_AL` at 1.0 sccm (in range `[0.36, 18]`,
divisor 18) the code written is the truncation 1777, while the claimed
nearest-integer encoding gives `round(32000/18) = 1778`. -/
theorem set_flowrate_truncated_encoding_cex :
    (set_flowrate "CO_AL" (some 1) []).outcome = FlowOutcome.ok 1 1777 ∧
    specSetpointCode 1 18 = 1778 ∧ (1777 : ℤ) ≠ 1778 := by
  refine ⟨?_, by norm_num [specSetpointCode, round_eq], by decide⟩
  have hiter : loop_iter Gas.CO_AL (some 1) = LoopIter.broke 1 := by
    norm_num [loop_iter, calibration_factor, gas_flow_range]
  have hval : validate_flow Gas.CO_AL (some 1) [] = ([], VRes.done 1) := by
    simp [validate_flow, hiter]
  have hfg : findGas "CO_AL" = some Gas.CO_AL := by decide
  have htr : pyTrunc ((32000 : ℚ) / 18) = 1777 := by
    norm_num [pyTrunc]
  have hpos : (0 : ℚ) < 1 := by norm_num
  simp [set_flowrate, hfg, hval, hpos, htr, gas_float_to_int_factor, feed_gas_functions]

/-! ## Claim C4 -/

/-- Claim C4: `set_flowrate` rejects exactly the unregistered gas ids, but the
registered gas `CO2_BL` (whose requested flow 5.0 is inside its range
`[0.26, 13]`) hits a failing `calibration_factor` lookup — the dict literals
repeat the key `CO2_AL` and omit `CO2_BL` — so the call dies with `KeyError`
before any valve command or MFC write; every other registered gas has all its
per-gas lookups. -/
theorem set_flowrate_CO2_BL_lookup_failure :
    (Gas.CO2_BL ∈ gas_list ∧ findGas "CO2_BL" = some Gas.CO2_BL) ∧
    ((gas_flow_range Gas.CO2_BL).1 ≤ 5 ∧ (5 : ℚ) ≤ (gas_flow_range Gas.CO2_BL).2) ∧
    calibration_factor Gas.CO2_BL = none ∧
    feed_gas_functions Gas.CO2_BL = none ∧
    set_flowrate "CO2_BL" (some 5) [] = ⟨[], FlowOutcome.keyErr⟩ ∧
    set_flowrate "XYZ" (some 5) [] = ⟨[], FlowOutcome.unknownGas⟩ ∧
    (∀ g : Gas, g = Gas.CO2_BL ∨
      ((calibration_factor g).isSome ∧ (feed_gas_functions g).isSome)) := by
  refine ⟨⟨by decide, by decide⟩, ⟨by norm_num [gas_flow_range], by norm_num [gas_flow_range]⟩,
    rfl, rfl, ?_, ?_, by decide⟩
  · have hiter : loop_iter Gas.CO2_BL (some 5) = LoopIter.failKey := by
      norm_num [loop_iter, calibration_factor]
    have hval : validate_flow Gas.CO2_BL (some 5) [] = ([], VRes.keyMissing) := by
      simp [validate_flow, hiter]
    have hfg : findGas "CO2_BL" = some Gas.CO2_BL := by decide
    simp [set_flowrate, hfg, hval]
  · have hfg : findGas "XYZ" = (none : Option Gas) := by decide
    simp [set_flowrate, hfg]

/-! ## Batch setpoints (`flowsms_setpoints`, source lines 912-1027)

The function takes one optional flow per gas id (all defaulting to `None`) and
dispatches `set_flowrate` calls in a fixed order: each `if/elif/else` block
picks exactly one gas of its mutually exclusive group, the first argument that
is neither `None` nor nonpositive winning, the last alternative taken when
none qualifies.  Each recorded `(gas, flow)` pair below is the argument pair
of one `set_flowrate` call, in call order. -/

structure SetpointArgs where
  H2_A : Option ℚ
  D2_A : Option ℚ
  O2_A : Option ℚ
  CO_AH : Option ℚ
  CO2_AH : Option ℚ
  CO_AL : Option ℚ
  CO2_AL : Option ℚ
  CH4_A : Option ℚ
  C2H6_A : Option ℚ
  C3H8_A : Option ℚ
  He_A : Option ℚ
  Ar_A : Option ℚ
  N2_A : Option ℚ
  He_B : Option ℚ
  Ar_B : Option ℚ
  N2_B : Option ℚ
  CH4_B : Option ℚ
  C2H6_B : Option ℚ
  C3H8_B : Option ℚ
  CO_BH : Option ℚ
  CO2_BH : Option ℚ
  CO_BL : Option ℚ
  CO2_BL : Option ℚ
  O2_B : Option ℚ
  H2_B : Option ℚ
  D2_B : Option ℚ
deriving DecidableEq

/-- The Python guard `x is not None and x > 0.0`. -/
def posFlow : Option ℚ → Bool
  | none => false
  | some x => decide (0 < x)

/-- The CO/CO2 line-A block (lines 969-976). -/
def chooseCO_A (a : SetpointArgs) : Gas × Option ℚ :=
  if posFlow a.CO_AH then (.CO_AH, a.CO_AH)
  else if posFlow a.CO_AL then (.CO_AL, a.CO_AL)
  else if posFlow a.CO2_AH then (.CO2_AH, a.CO2_AH)
  else (.CO2_AL, a.CO2_AL)

/-- The CO/CO2 line-B block (lines 978-985). -/
def chooseCO_B (a : SetpointArgs) : Gas × Option ℚ :=
  if posFlow a.CO_BH then (.CO_BH, a.CO_BH)
  else if posFlow a.CO_BL then (.CO_BL, a.CO_BL)
  else if posFlow a.CO2_BH then (.CO2_BH, a.CO2_BH)
  else (.CO2_BL, a.CO2_BL)

/-- The hydrocarbon line-A block (lines 987-992). -/
def chooseHC_A (a : SetpointArgs) : Gas × Option ℚ :=
  if posFlow a.CH4_A then (.CH4_A, a.CH4_A)
  else if posFlow a.C2H6_A then (.C2H6_A, a.C2H6_A)
  else (.C3H8_A, a.C3H8_A)

/-- The hydrocarbon line-B block (lines 994-999). -/
def chooseHC_B (a : SetpointArgs) : Gas × Option ℚ :=
  if posFlow a.CH4_B then (.CH4_B, a.CH4_B)
  else if posFlow a.C2H6_B then (.C2H6_B, a.C2H6_B)
  else (.C3H8_B, a.C3H8_B)

/-- The H2/D2 line-A block (lines 1001-1004). -/
def chooseH2D2_A (a : SetpointArgs) : Gas × Option ℚ :=
  if posFlow a.H2_A then (.H2_A, a.H2_A) else (.D2_A, a.D2_A)

/-- The H2/D2 line-B block (lines 1006-1009). -/
def chooseH2D2_B (a : SetpointArgs) : Gas × Option ℚ :=
  if posFlow a.H2_B then (.H2_B, a.H2_B) else (.D2_B, a.D2_B)

/-- The carrier line-A block (lines 1011-1016). -/
def chooseCarrier_A (a : SetpointArgs) : Gas × Option ℚ :=
  if posFlow a.He_A then (.He_A, a.He_A)
  else if posFlow a.Ar_A then (.Ar_A, a.Ar_A)
  else (.N2_A, a.N2_A)

/-- The carrier line-B block (lines 1018-1023). -/
def chooseCarrier_B (a : SetpointArgs) : Gas × Option ℚ :=
  if posFlow a.He_B then (.He_B, a.He_B)
  else if posFlow a.Ar_B then (.Ar_B, a.Ar_B)
  else (.N2_B, a.N2_B)

/-- The `set_flowrate` argument pairs issued by one `flowsms_setpoints` call,
in source order; `O2_A` and `O2_B` are set unconditionally at the end. -/
def flowsms_setpoints (a : SetpointArgs) : List (Gas × Option ℚ) :=
  [chooseCO_A a, chooseCO_B a, chooseHC_A a, chooseHC_B a,
   chooseH2D2_A a, chooseH2D2_B a, chooseCarrier_A a, chooseCarrier_B a,
   (.O2_A, a.O2_A), (.O2_B, a.O2_B)]

/-- The selection-group index of a gas: gases with the same index share one
`if/elif/else` block of `flowsms_setpoints` (and one MFC node). -/
def gasGroup : Gas → ℕ
  | .CO_AH | .CO_AL | .CO2_AH | .CO2_AL => 0
  | .CO_BH | .CO_BL | .CO2_BH | .CO2_BL => 1
  | .CH4_A | .C2H6_A | .C3H8_A => 2
  | .CH4_B | .C2H6_B | .C3H8_B => 3
  | .H2_A | .D2_A => 4
  | .H2_B | .D2_B => 5
  | .He_A | .Ar_A | .N2_A => 6
  | .He_B | .Ar_B | .N2_B => 7
  | .O2_A => 8
  | .O2_B => 9

/-- Modelled from the spec: per group, the first non-null-and-positive flow
wins, falling through to the last alternative when none qualifies. -/
def firstPosOrLast : List (Gas × Option ℚ) → Option (Gas × Option ℚ)
  | [] => none
  | [c] => some c
  | c :: c2 :: rest => if posFlow c.2 then some c else firstPosOrLast (c2 :: rest)

theorem gasGroup_chooseCO_A (a : SetpointArgs) : gasGroup (chooseCO_A a).1 = 0 := by
  unfold chooseCO_A
  split_ifs <;> rfl

theorem gasGroup_chooseCO_B (a : SetpointArgs) : gasGroup (chooseCO_B a).1 = 1 := by
  unfold chooseCO_B
  split_ifs <;> rfl

theorem gasGroup_chooseHC_A (a : SetpointArgs) : gasGroup (chooseHC_A a).1 = 2 := by
  unfold chooseHC_A
  split_ifs <;> rfl

theorem gasGroup_chooseHC_B (a : SetpointArgs) : gasGroup (chooseHC_B a).1 = 3 := by
  unfold chooseHC_B
  split_ifs <;> rfl

theorem gasGroup_chooseH2D2_A (a : SetpointArgs) : gasGroup (chooseH2D2_A a).1 = 4 := by
  unfold chooseH2D2_A
  split_ifs <;> rfl

theorem gasGroup_chooseH2D2_B (a : SetpointArgs) : gasGroup (chooseH2D2_B a).1 = 5 := by
  unfold chooseH2D2_B
  split_ifs <;> rfl

theorem gasGroup_chooseCarrier_A (a : SetpointArgs) :
    gasGroup (chooseCarrier_A a).1 = 6 := by
  unfold chooseCarrier_A
  split_ifs <;> rfl

theorem gasGroup_chooseCarrier_B (a : SetpointArgs) :
    gasGroup (chooseCarrier_B a).1 = 7 := by
  unfold chooseCarrier_B
  split_ifs <;> rfl

theorem gasGroup_O2_A_val : gasGroup Gas.O2_A = 8 := rfl

theorem gasGroup_O2_B_val : gasGroup Gas.O2_B = 9 := rfl

/-! ## Claim C8 -/

/-- Claim C8: every `flowsms_setpoints` call issues exactly one `set_flowrate`
call per mutually exclusive group (the calls filtered to a group form one
singleton), the choice refines the priority rule (first non-null-and-positive
wins, last alternative otherwise), gases of one group share one MFC node, and
with `CH4_A = 5` and `C2H6_A = 10` supplied together only `CH4_A` is applied. -/
theorem flowsms_setpoints_priority :
    (∀ a : SetpointArgs,
      ((flowsms_setpoints a).filter fun c => gasGroup c.1 == 0) = [chooseCO_A a] ∧
      ((flowsms_setpoints a).filter fun c => gasGroup c.1 == 1) = [chooseCO_B a] ∧
      ((flowsms_setpoints a).filter fun c => gasGroup c.1 == 2) = [chooseHC_A a] ∧
      ((flowsms_setpoints a).filter fun c => gasGroup c.1 == 3) = [chooseHC_B a] ∧
      ((flowsms_setpoints a).filter fun c => gasGroup c.1 == 4) = [chooseH2D2_A a] ∧
      ((flowsms_setpoints a).filter fun c => gasGroup c.1 == 5) = [chooseH2D2_B a] ∧
      ((flowsms_setpoints a).filter fun c => gasGroup c.1 == 6) = [chooseCarrier_A a] ∧
      ((flowsms_setpoints a).filter fun c => gasGroup c.1 == 7) = [chooseCarrier_B a]) ∧
    (∀ a : SetpointArgs,
      firstPosOrLast [(.CO_AH, a.CO_AH), (.CO_AL, a.CO_AL),
        (.CO2_AH, a.CO2_AH), (.CO2_AL, a.CO2_AL)] = some (chooseCO_A a) ∧
      firstPosOrLast [(.CO_BH, a.CO_BH), (.CO_BL, a.CO_BL),
        (.CO2_BH, a.CO2_BH), (.CO2_BL, a.CO2_BL)] = some (chooseCO_B a) ∧
      firstPosOrLast [(.CH4_A, a.CH4_A), (.C2H6_A, a.C2H6_A),
        (.C3H8_A, a.C3H8_A)] = some (chooseHC_A a) ∧
      firstPosOrLast [(.CH4_B, a.CH4_B), (.C2H6_B, a.C2H6_B),
        (.C3H8_B, a.C3H8_B)] = some (chooseHC_B a) ∧
      firstPosOrLast [(.H2_A, a.H2_A), (.D2_A, a.D2_A)] = some (chooseH2D2_A a) ∧
      firstPosOrLast [(.H2_B, a.H2_B), (.D2_B, a.D2_B)] = some (chooseH2D2_B a) ∧
      firstPosOrLast [(.He_A, a.He_A), (.Ar_A, a.Ar_A),
        (.N2_A, a.N2_A)] = some (chooseCarrier_A a) ∧
      firstPosOrLast [(.He_B, a.He_B), (.Ar_B, a.Ar_B),
        (.N2_B, a.N2_B)] = some (chooseCarrier_B a)) ∧
    ((gas_list.filter fun g => gasGroup g == 0).map gas_ID = [6, 6, 6, 6] ∧
      (gas_list.filter fun g => gasGroup g == 1).map gas_ID = [11, 11, 11, 11] ∧
      (gas_list.filter fun g => gasGroup g == 2).map gas_ID = [7, 7, 7] ∧
      (gas_list.filter fun g => gasGroup g == 3).map gas_ID = [10, 10, 10] ∧
      (gas_list.filter fun g => gasGroup g == 4).map gas_ID = [4, 4] ∧
      (gas_list.filter fun g => gasGroup g == 5).map gas_ID = [13, 13] ∧
      (gas_list.filter fun g => gasGroup g == 6).map gas_ID = [8, 8, 8] ∧
      (gas_list.filter fun g => gasGroup g == 7).map gas_ID = [9, 9, 9]) ∧
    flowsms_setpoints
        ⟨none, none, none, none, none, none, none, some 5, some 10, none, none,
         none, none, none, none, none, none, none, none, none, none, none, none,
         none, none, none⟩ =
      [(.CO2_AL, none), (.CO2_BL, none), (.CH4_A, some 5), (.C3H8_B, none),
       (.D2_A, none), (.D2_B, none), (.N2_A, none), (.N2_B, none),
       (.O2_A, none), (.O2_B, none)] := by
  refine ⟨?_, ?_, by decide, ?_⟩
  · intro a
    refine ⟨?_, ?_, ?_, ?_, ?_, ?_, ?_, ?_⟩ <;>
      simp [flowsms_setpoints, List.filter, gasGroup_chooseCO_A, gasGroup_chooseCO_B,
        gasGroup_chooseHC_A, gasGroup_chooseHC_B, gasGroup_chooseH2D2_A,
        gasGroup_chooseH2D2_B, gasGroup_chooseCarrier_A, gasGroup_chooseCarrier_B,
        gasGroup_O2_A_val, gasGroup_O2_B_val]
  · intro a
    refine ⟨?_, ?_, ?_, ?_, ?_, ?_, ?_, ?_⟩
    · simp only [chooseCO_A]
      split_ifs <;> simp_all [firstPosOrLast]
    · simp only [chooseCO_B]
      split_ifs <;> simp_all [firstPosOrLast]
    · simp only [chooseHC_A]
      split_ifs <;> simp_all [firstPosOrLast]
    · simp only [chooseHC_B]
      split_ifs <;> simp_all [firstPosOrLast]
    · simp only [chooseH2D2_A]
      split_ifs <;> simp_all [firstPosOrLast]
    · simp only [chooseH2D2_B]
      split_ifs <;> simp_all [firstPosOrLast]
    · simp only [chooseCarrier_A]
      split_ifs <;> simp_all [firstPosOrLast]
    · simp only [chooseCarrier_B]
      split_ifs <;> simp_all [firstPosOrLast]
  · have h5 : posFlow (some (5 : ℚ)) = true := by
      norm_num [posFlow]
    simp [flowsms_setpoints, chooseCO_A, chooseCO_B, chooseHC_A, chooseHC_B,
      chooseH2D2_A, chooseH2D2_B, chooseCarrier_A, chooseCarrier_B, posFlow, h5]

/-! ## Status reader (`flowsms_status`, source lines 1029-1582)

The MFC bus is modelled as an environment giving the value read for each
`(node, process, parameter)` triple; a read result always carries its data
field.  `format(x, ".2f")` (appending to the per-node lists, followed by the
`float(...)` parse-back the code performs on every use) is modelled as rounding
to two decimals. -/

structure PParam where
  node : ℕ
  proc : ℕ
  parm : ℕ
deriving DecidableEq

def MfcEnv := ℕ → ℕ → ℕ → ℚ

def read_parameters (env : MfcEnv) (ps : List PParam) : List ℚ :=
  ps.map fun p => env p.node p.proc p.parm

def ID_P_A : ℕ := 3
def ID_H2_D2_A : ℕ := 4
def ID_O2_A : ℕ := 5
def ID_CO_CO2_A : ℕ := 6
def ID_HC_A : ℕ := 7
def ID_CARRIER_A : ℕ := 8
def ID_CARRIER_B : ℕ := 9
def ID_HC_B : ℕ := 10
def ID_CO_CO2_B : ℕ := 11
def ID_O2_B : ℕ := 12
def ID_H2_D2_B : ℕ := 13
def ID_P_B : ℕ := 14

def params_h2_d2_a : List PParam :=
  [⟨ID_H2_D2_A, 33, 0⟩, ⟨ID_H2_D2_A, 33, 3⟩, ⟨ID_H2_D2_A, 1, 16⟩]
def params_h2_d2_b : List PParam :=
  [⟨ID_H2_D2_B, 33, 0⟩, ⟨ID_H2_D2_B, 33, 3⟩, ⟨ID_H2_D2_B, 1, 16⟩]
def params_o2_a : List PParam := [⟨ID_O2_A, 33, 0⟩, ⟨ID_O2_A, 33, 3⟩]
def params_o2_b : List PParam := [⟨ID_O2_B, 33, 0⟩, ⟨ID_O2_B, 33, 3⟩]
def params_hc_a : List PParam :=
  [⟨ID_HC_A, 33, 0⟩, ⟨ID_HC_A, 33, 3⟩, ⟨ID_HC_A, 1, 16⟩]
def params_hc_b : List PParam :=
  [⟨ID_HC_B, 33, 0⟩, ⟨ID_HC_B, 33, 3⟩, ⟨ID_HC_B, 1, 16⟩]
def params_co_co2_a : List PParam :=
  [⟨ID_CO_CO2_A, 33, 0⟩, ⟨ID_CO_CO2_A, 33, 3⟩, ⟨ID_CO_CO2_A, 1, 16⟩]
def params_co_co2_b : List PParam :=
  [⟨ID_CO_CO2_B, 33, 0⟩, ⟨ID_CO_CO2_B, 33, 3⟩, ⟨ID_CO_CO2_B, 1, 16⟩]
def params_carrier_a : List PParam :=
  [⟨ID_CARRIER_A, 33, 0⟩, ⟨ID_CARRIER_A, 33, 3⟩, ⟨ID_CARRIER_A, 1, 16⟩]

/-- Source lines 1254-1273: the setpoint entry of the carrier-B parameter list
reads node `ID_CARRIER_A` (a literal of the source preserved here). -/
def params_carrier_b : List PParam :=
  [⟨ID_CARRIER_B, 33, 0⟩, ⟨ID_CARRIER_A, 33, 3⟩, ⟨ID_CARRIER_B, 1, 16⟩]

def params_p_a : List PParam := [⟨ID_P_A, 33, 0⟩]
def params_p_b : List PParam := [⟨ID_P_B, 33, 0⟩]

/-- Model of `float(format(x, ".2f"))`: rounding to two decimals. -/
def fmt2 (q : ℚ) : ℚ := round (q * 100) / 100

/-- Model of `format(x, ".1f")` for the concentration percentages. -/
def fmt1 (q : ℚ) : ℚ := round (q * 10) / 10

/-- A channel name decoded from the active calibration-curve index; an index
outside the decoded set leaves the raw number in place (the source keeps the
float in the `fluid_*` variable). -/
inductive Fluid
  | named (s : String)
  | raw (q : ℚ)
deriving DecidableEq

def decode2 (c : ℚ) (n0 n1 : String) : Fluid :=
  if c = 0 then .named n0 else if c = 1 then .named n1 else .raw c

def decode3 (c : ℚ) (n0 n1 n2 : String) : Fluid :=
  if c = 0 then .named n0 else if c = 1 then .named n1
  else if c = 2 then .named n2 else .raw c

def decode4 (c : ℚ) (n0 n1 n2 n3 : String) : Fluid :=
  if c = 0 then .named n0 else if c = 1 then .named n1
  else if c = 2 then .named n2 else if c = 3 then .named n3 else .raw c

/-- One printed line of the flow/pressure report (lines 1472-1581). -/
inductive ReportLine
  | channel (f : Fluid) (measured setpoint : ℚ) (conc : Option ℚ)
  | carrier (f : Fluid) (measured setpoint : ℚ)
  | totalA (t : ℚ)
  | totalB (t : ℚ)
  | pressureA (p : ℚ)
  | pressureB (p : ℚ)
  | indexErr
deriving DecidableEq

/-- A channel report line: omitted when the setpoint (`lst[1]`) is zero; the
concentration percent is defined only when the line total is nonzero. -/
def concLine (f : Fluid) (lst : List ℚ) (total : ℚ) : List ReportLine :=
  if lst.getD 1 0 = 0 then []
  else [.channel f (lst.getD 0 0) (lst.getD 1 0)
    (if total = 0 then none else some (fmt1 (lst.getD 0 0 / total * 100)))]

/-- A carrier report line (no concentration printed; lines 1551-1567). -/
def carrierLine (f : Fluid) (lst : List ℚ) : List ReportLine :=
  if lst.getD 1 0 = 0 then [] else [.carrier f (lst.getD 0 0) (lst.getD 1 0)]

/-- The `for value in vals: ...; return lst[0]` loops at lines 1422-1427 and
1429-1434: the `return` sits inside the loop body, so the first element is
formatted and returned immediately; an empty read list would skip the loop. -/
def loopReturnHead : List ℚ → Option ℚ
  | [] => none
  | v :: _ => some (fmt2 v)

structure StatusOut where
  slept : ℚ
  printed : List ReportLine
  ret : Option ℚ
deriving DecidableEq

/-- `flowsms_status(delay)` (lines 1029-1582): sleeps `delay`, batch-reads the
grouped parameters of every node and the two pressure nodes, formats them and
decodes the active-curve indices, then runs the line-A pressure loop — whose
in-loop `return` hands back the formatted line-A pressure immediately.  The
line-B pressure loop and the whole percentage/report section (lines 1429-1581)
only run if the pressure parameter lists were empty; with the one-element lists
above they are dead code, kept here after the two `loopReturnHead` matches (the
final pressure prints of that section would index the empty `lst_p_a`, an
IndexError). -/
def flowsms_status (delay : ℚ) (env : MfcEnv) : StatusOut :=
  let lst_h2_d2_a := (read_parameters env params_h2_d2_a).map fmt2
  let lst_h2_d2_b := (read_parameters env params_h2_d2_b).map fmt2
  let lst_o2_a := (read_parameters env params_o2_a).map fmt2
  let lst_o2_b := (read_parameters env params_o2_b).map fmt2
  let lst_co_co2_a := (read_parameters env params_co_co2_a).map fmt2
  let lst_co_co2_b := (read_parameters env params_co_co2_b).map fmt2
  let lst_hc_a := (read_parameters env params_hc_a).map fmt2
  let lst_hc_b := (read_parameters env params_hc_b).map fmt2
  let lst_carrier_a := (read_parameters env params_carrier_a).map fmt2
  let lst_carrier_b := (read_parameters env params_carrier_b).map fmt2
  let fluid_h2_d2_a := decode2 (lst_h2_d2_a.getD 2 0) "H2_A" "D2_A"
  let fluid_h2_d2_b := decode2 (lst_h2_d2_b.getD 2 0) "H2_B" "D2_B"
  let fluid_co_co2_a := decode4 (lst_co_co2_a.getD 2 0) "CO_AH" "CO2_AH" "CO2_AL" "CO_AL"
  let fluid_co_co2_b := decode4 (lst_co_co2_b.getD 2 0) "CO_BH" "CO2_BH" "CO2_BL" "CO_BL"
  let fluid_hc_a := decode3 (lst_hc_a.getD 2 0) "CH4_A" "C2H6_A" "C3H8_A"
  let fluid_hc_b := decode3 (lst_hc_b.getD 2 0) "CH4_B" "C2H6_B" "C3H8_B"
  let fluid_carrier_a := decode3 (lst_carrier_a.getD 2 0) "He" "Ar" "N2"
  let fluid_carrier_b := decode3 (lst_carrier_b.getD 2 0) "He" "Ar" "N2"
  match loopReturnHead (read_parameters env params_p_a) with
  | some r => ⟨delay, [], some r⟩
  | none =>
    match loopReturnHead (read_parameters env params_p_b) with
    | some r => ⟨delay, [], some r⟩
    | none =>
      let total_flow_a := fmt2 (lst_h2_d2_a.getD 0 0 + lst_o2_a.getD 0 0 +
        lst_co_co2_a.getD 0 0 + lst_hc_a.getD 0 0 + lst_carrier_a.getD 0 0)
      let total_flow_b := fmt2 (lst_h2_d2_b.getD 0 0 + lst_o2_b.getD 0 0 +
        lst_co_co2_b.getD 0 0 + lst_hc_b.getD 0 0 + lst_carrier_b.getD 0 0)
      ⟨delay,
       concLine fluid_h2_d2_a lst_h2_d2_a total_flow_a ++
         concLine fluid_h2_d2_b lst_h2_d2_b total_flow_b ++
         concLine (.named "O2_A") lst_o2_a total_flow_a ++
         concLine (.named "O2_B") lst_o2_b total_flow_b ++
         concLine fluid_co_co2_a lst_co_co2_a total_flow_a ++
         concLine fluid_co_co2_b lst_co_co2_b total_flow_b ++
         concLine fluid_hc_a lst_hc_a total_flow_a ++
         concLine fluid_hc_b lst_hc_b total_flow_b ++
         carrierLine fluid_carrier_a lst_carrier_a ++
         carrierLine fluid_carrier_b lst_carrier_b ++
         [.totalA total_flow_a, .totalB total_flow_b, .indexErr],
       none⟩

/-- The pressure pair displayed on one status tick of `heating_event` or
`cooling_event` (lines 1619-1623 and 1667-1671): `pressure_a` and `pressure_b`
are two successive `flowsms_status()` returns (default delay 0), the hardware
possibly having moved between the calls. -/
def ramp_tick_pressures (e1 e2 : MfcEnv) : Option ℚ × Option ℚ :=
  ((flowsms_status 0 e1).ret, (flowsms_status 0 e2).ret)

/-- The pressure pair displayed on one tick of `time_event` (lines 1735-1739). -/
def time_event_tick_pressures (e1 e2 : MfcEnv) : Option ℚ × Option ℚ :=
  ((flowsms_status 0 e1).ret, (flowsms_status 0 e2).ret)

/-! ## Claim C3 -/

/-- Claim C3: the `return lst_p_a[0]` sitting inside the line-A pressure loop
makes every `flowsms_status` call return the formatted line-A (node 3) pressure
right after reading it: the percentage computation and the whole textual
flow/pressure report are never reached, no report line is printed. -/
theorem flowsms_status_early_return :
    ∀ (delay : ℚ) (env : MfcEnv),
      flowsms_status delay env = ⟨delay, [], some (fmt2 (env ID_P_A 33 0))⟩ :=
  fun _ _ => rfl

/-! ## Claim C9 -/

/-- Claim C9: every `flowsms_status` call returns the formatted line-A (node 3)
pressure and prints nothing, so on every status tick of the heating, cooling
and time-event loops both the value displayed as the line-A pressure and the
value displayed as the line-B pressure come from reads of the line-A pressure
node; the line-B pressure node (node 14) never reaches the display. -/
theorem pressure_display_uses_line_A_only :
    (∀ (delay : ℚ) (env : MfcEnv),
      (flowsms_status delay env).ret = some (fmt2 (env ID_P_A 33 0)) ∧
      (flowsms_status delay env).printed = []) ∧
    (∀ e1 e2 : MfcEnv, ramp_tick_pressures e1 e2 =
      (some (fmt2 (e1 ID_P_A 33 0)), some (fmt2 (e2 ID_P_A 33 0)))) ∧
    (∀ e1 e2 : MfcEnv, time_event_tick_pressures e1 e2 =
      (some (fmt2 (e1 ID_P_A 33 0)), some (fmt2 (e2 ID_P_A 33 0)))) :=
  ⟨fun _ _ => ⟨rfl, rfl⟩, fun _ _ => rfl, fun _ _ => rfl⟩

/-! ## Thermal ramp loops (`heating_event` / `cooling_event`,
source lines 1589-1680)

One loop iteration reads the process value (`reads i`, `none` modelling an
`IOError`/`ValueError` that is caught and `continue`d), then evaluates
`float(temp_tc) < float(sp)`: with `sp = None` this raises `TypeError`, caught
and `continue`d.  While the comparison holds the loop prints one live status
block and sleeps a second; otherwise it prints the reached message and breaks.
The result is `some (exit iteration index, number of status blocks printed)`,
`none` when the given fuel bound is exhausted with the loop still running. -/

def heatingLoop (sp : Option ℚ) (reads : ℕ → Option ℚ) :
    ℕ → ℕ → ℕ → Option (ℕ × ℕ)
  | 0, _, _ => none
  | fuel + 1, i, blocks =>
    match reads i, sp with
    | none, _ => heatingLoop sp reads fuel (i + 1) blocks
    | some _, none => heatingLoop sp reads fuel (i + 1) blocks
    | some t, some spv =>
      if t < spv then heatingLoop sp reads fuel (i + 1) (blocks + 1)
      else some (i, blocks)

/-- The mirror loop of `cooling_event`: continues while `temp > sp`. -/
def coolingLoop (sp : Option ℚ) (reads : ℕ → Option ℚ) :
    ℕ → ℕ → ℕ → Option (ℕ × ℕ)
  | 0, _, _ => none
  | fuel + 1, i, blocks =>
    match reads i, sp with
    | none, _ => coolingLoop sp reads fuel (i + 1) blocks
    | some _, none => coolingLoop sp reads fuel (i + 1) blocks
    | some t, some spv =>
      if spv < t then coolingLoop sp reads fuel (i + 1) (blocks + 1)
      else some (i, blocks)

/-- `heating_event(rate_sp, sp)`: the entry `try: sp = float(sp) ... except:
sp = None` degrades a non-convertible setpoint argument to `None` (modelled by
the `Option`), then the polling loop runs from iteration 0. -/
def heating_event (sp : Option ℚ) (reads : ℕ → Option ℚ) (fuel : ℕ) :
    Option (ℕ × ℕ) :=
  heatingLoop sp reads fuel 0 0

def cooling_event (sp : Option ℚ) (reads : ℕ → Option ℚ) (fuel : ℕ) :
    Option (ℕ × ℕ) :=
  coolingLoop sp reads fuel 0 0

theorem heatingLoop_exit (sp : ℚ) (vals : ℕ → ℚ) :
    ∀ (m fuel i blocks : ℕ),
      (∀ j, j < m → vals (i + j) < sp) → ¬ vals (i + m) < sp → m < fuel →
      heatingLoop (some sp) (fun n => some (vals n)) fuel i blocks =
        some (i + m, blocks + m) := by
  intro m
  induction m with
  | zero =>
    intro fuel i blocks _ hstop hfuel
    match fuel, hfuel with
    | fuel + 1, _ =>
      simp only [Nat.add_zero] at hstop
      simp [heatingLoop, hstop]
  | succ m ih =>
    intro fuel i blocks hlt hstop hfuel
    match fuel, hfuel with
    | fuel + 1, hfuel =>
      have h0 : vals i < sp := by simpa using hlt 0 (Nat.succ_pos m)
      have hstep : heatingLoop (some sp) (fun n => some (vals n)) (fuel + 1) i blocks =
          heatingLoop (some sp) (fun n => some (vals n)) fuel (i + 1) (blocks + 1) := by
        simp [heatingLoop, h0]
      have hsh : ∀ j, j < m → vals (i + 1 + j) < sp := by
        intro j hj
        have := hlt (j + 1) (Nat.succ_lt_succ hj)
        rwa [show i + (j + 1) = i + 1 + j by omega] at this
      have hst : ¬ vals (i + 1 + m) < sp := by
        rwa [show i + (m + 1) = i + 1 + m by omega] at hstop
      rw [hstep, ih fuel (i + 1) (blocks + 1) hsh hst (by omega)]
      rw [show i + 1 + m = i + (m + 1) by omega, show blocks + 1 + m = blocks + (m + 1) by omega]

theorem coolingLoop_exit (sp : ℚ) (vals : ℕ → ℚ) :
    ∀ (m fuel i blocks : ℕ),
      (∀ j, j < m → sp < vals (i + j)) → ¬ sp < vals (i + m) → m < fuel →
      coolingLoop (some sp) (fun n => some (vals n)) fuel i blocks =
        some (i + m, blocks + m) := by
  intro m
  induction m with
  | zero =>
    intro fuel i blocks _ hstop hfuel
    match fuel, hfuel with
    | fuel + 1, _ =>
      simp only [Nat.add_zero] at hstop
      simp [coolingLoop, hstop]
  | succ m ih =>
    intro fuel i blocks hlt hstop hfuel
    match fuel, hfuel with
    | fuel + 1, hfuel =>
      have h0 : sp < vals i := by simpa using hlt 0 (Nat.succ_pos m)
      have hstep : coolingLoop (some sp) (fun n => some (vals n)) (fuel + 1) i blocks =
          coolingLoop (some sp) (fun n => some (vals n)) fuel (i + 1) (blocks + 1) := by
        simp [coolingLoop, h0]
      have hsh : ∀ j, j < m → sp < vals (i + 1 + j) := by
        intro j hj
        have := hlt (j + 1) (Nat.succ_lt_succ hj)
        rwa [show i + (j + 1) = i + 1 + j by omega] at this
      have hst : ¬ sp < vals (i + 1 + m) := by
        rwa [show i + (m + 1) = i + 1 + m by omega] at hstop
      rw [hstep, ih fuel (i + 1) (blocks + 1) hsh hst (by omega)]
      rw [show i + 1 + m = i + (m + 1) by omega, show blocks + 1 + m = blocks + (m + 1) by omega]

/-! ## Claim C6 -/

/-- Claim C6: with a converting setpoint and all reads succeeding,
`heating_event` exits on the first iteration `k` whose measured value satisfies
`measured >= sp`, having printed exactly `k` ramp status blocks (none on the
exit iteration, so `k = 0` — an initially reached setpoint — prints no block at
all); `cooling_event` mirrors this, exiting on the first iteration with
`measured <= sp`. -/
theorem ramp_loops_exit_first_crossing (sp : ℚ) (vals : ℕ → ℚ) (k fuel : ℕ)
    (hfuel : k < fuel) :
    ((∀ j, j < k → vals j < sp) → ¬ vals k < sp →
      heating_event (some sp) (fun n => some (vals n)) fuel = some (k, k)) ∧
    ((∀ j, j < k → sp < vals j) → ¬ sp < vals k →
      cooling_event (some sp) (fun n => some (vals n)) fuel = some (k, k)) := by
  constructor
  · intro h1 h2
    have := heatingLoop_exit sp vals k fuel 0 0 (by simpa using h1) (by simpa using h2) hfuel
    simpa [heating_event] using this
  · intro h1 h2
    have := coolingLoop_exit sp vals k fuel 0 0 (by simpa using h1) (by simpa using h2) hfuel
    simpa [cooling_event] using this

theorem ramp_loops_exit_first_crossing_witness :
    heating_event (some 5) (fun _ => some 10) 1 = some (0, 0) ∧
    cooling_event (some 5) (fun _ => some 3) 1 = some (0, 0) :=
  ⟨(ramp_loops_exit_first_crossing 5 (fun _ => 10) 0 1 (by norm_num)).1
      (fun j hj => absurd hj (Nat.not_lt_zero j)) (by norm_num),
   (ramp_loops_exit_first_crossing 5 (fun _ => 3) 0 1 (by norm_num)).2
      (fun j hj => absurd hj (Nat.not_lt_zero j)) (by norm_num)⟩

/-! ## Claim C10 -/

/-- Claim C10: when the setpoint argument does not convert (the entry
`try/except` degrades it to `None`), every loop iteration raises `TypeError` at
the comparison, which is caught and `continue`d: no fuel bound makes the loop
exit — `heating_event` and `cooling_event` never terminate, whatever the
measured values and wherever the loop starts. -/
theorem ramp_loops_never_exit_on_none_setpoint :
    (∀ (reads : ℕ → Option ℚ) (fuel i blocks : ℕ),
      heatingLoop none reads fuel i blocks = none ∧
      coolingLoop none reads fuel i blocks = none) ∧
    (∀ (reads : ℕ → Option ℚ) (fuel : ℕ),
      heating_event none reads fuel = none ∧
      cooling_event none reads fuel = none) := by
  have main : ∀ (reads : ℕ → Option ℚ) (fuel i blocks : ℕ),
      heatingLoop none reads fuel i blocks = none ∧
      coolingLoop none reads fuel i blocks = none := by
    intro reads fuel
    induction fuel with
    | zero => intro i blocks; exact ⟨rfl, rfl⟩
    | succ n ih =>
      intro i blocks
      constructor
      · cases h : reads i <;> simp [heatingLoop, h, (ih (i + 1) blocks).1]
      · cases h : reads i <;> simp [coolingLoop, h, (ih (i + 1) blocks).2]
  exact ⟨main, fun reads fuel =>
    ⟨(main reads fuel 0 0).1, (main reads fuel 0 0).2⟩⟩

end GasControlNist2
